import Mathlib

/-!
Verification of the Smartpix backend (image-upload / AI-edit / dashboard service).

The development below is a shallow embedding of the backend's route handlers:
the MongoDB collections (`users`, `images`, `edits`) are modelled as lists of
typed records, the local filesystem (`static/uploads`, `static/processed`) as an
association list from string paths to byte payloads where a write shadows
earlier entries, Mongo ObjectId generation as a counter threaded through the
state, the JWT layer as an opaque signed-token record (payload plus the signing
key standing for the signature), and the bcrypt and OpenAI collaborators as
function parameters.  Route handlers become functions from a state and request
data to `Except` results mirroring each `raise HTTPException` / `raise
ValueError` in the Python source.  Identifiers are modelled as already-parsed
ObjectIds (`Nat`); the string-shape validation branches of the handlers are
outside the scope of the properties proved here.
-/

namespace Smartpix

/-- Byte payloads held by the blob store. -/
abbrev Bytes := List Nat

/-- A document of the `users` collection, as built by `signup` in
`backend/auth/signup.py`. -/
structure UserDoc where
  id : Nat
  email : String
  username : String
  password_hash : String
  created_at : Nat
deriving Repr, DecidableEq

/-- A document of the `images` collection, as built by `upload_image` in
`backend/api/editor.py`. -/
structure ImageDoc where
  id : Nat
  user_id : Nat
  original_url : String
  filename : String
  uploaded_at : Nat
  tags : List String
deriving Repr, DecidableEq

/-- A document of the `edits` collection, as built by `edit_image` in
`backend/api/editor.py`. -/
structure EditDoc where
  id : Nat
  image_id : Nat
  edited_url : String
  prompt : String
  edited_at : Nat
  user_id : Nat
  edit_type : String
  intensity : Int
deriving Repr, DecidableEq

/-- The local filesystem: newest write first; a path's content is the first
entry for it, so writing an existing path shadows (overwrites) the old one. -/
abbrev FS := List (String × Bytes)

/-- Read a path (`open(path, "rb")`): first entry wins. -/
def fsRead (fs : FS) (p : String) : Option Bytes :=
  (fs.find? (fun e => e.1 == p)).map (fun e => e.2)

/-- Write a path (`open(path, "wb")` + write): truncate/overwrite semantics. -/
def fsWrite (fs : FS) (p : String) (c : Bytes) : FS :=
  (p, c) :: fs

/-- Remove a path; removing an absent path is a no-op, which also models the
`except FileNotFoundError: pass` of `delete_image`. -/
def fsRemove (fs : FS) (p : String) : FS :=
  fs.filter (fun e => e.1 != p)

/-- The persistent state: the three Mongo collections, the filesystem, and the
ObjectId generator (fresh ids are drawn from `nextId`). -/
structure St where
  users : List UserDoc
  images : List ImageDoc
  edits : List EditDoc
  fs : FS
  nextId : Nat
deriving Repr, DecidableEq

/-- Errors surfaced by a route handler: `http s d` is
`HTTPException(status_code := s, detail := d)`; `valueError m` is the uncaught
`ValueError` raised by `process_image` for an unsupported edit type; `osError m`
is an uncaught filesystem error (missing input file); `serviceError m` is a
failure of the opaque OpenAI call propagating out of `process_image`. -/
inductive ApiError where
  | http : Nat → String → ApiError
  | valueError : String → ApiError
  | osError : String → ApiError
  | serviceError : String → ApiError
deriving Repr, DecidableEq

/-- A signed session token (python-jose JWT, payload `{sub, exp}`).  The `key`
field stands for the HS256 signature: decoding with the same key succeeds,
decoding with any other key fails, exactly as for an opaque signed token. -/
structure Token where
  sub : Option Nat
  exp : Nat
  key : String
deriving Repr, DecidableEq

/-- `jwt.encode({"sub": str(uid), "exp": exp}, key, algorithm="HS256")`. -/
def jwt_encode (uid : Nat) (exp : Nat) (key : String) : Token :=
  { sub := some uid, exp := exp, key := key }

/-- `jwt.decode(token, key, algorithms=["HS256"])`: succeeds only when the
signature matches `key` and the token has not expired (`now < exp`). -/
def jwt_decode (t : Token) (key : String) (now : Nat) : Option (Option Nat × Nat) :=
  if t.key == key && decide (now < t.exp) then some (t.sub, t.exp) else none

/-- Response model `AuthResponse` of `backend/models/user.py`. -/
structure AuthResp where
  email : String
  id : Nat
  token : Token
deriving Repr, DecidableEq

/-- `ACCESS_TOKEN_EXPIRE_MINUTES = 60 * 24 * 7` (one week, in minutes). -/
def ACCESS_TOKEN_EXPIRE_MINUTES : Nat := 60 * 24 * 7

/-- Token expiry instant for a token issued at `now` (seconds). -/
def tokenExpiry (now : Nat) : Nat :=
  now + ACCESS_TOKEN_EXPIRE_MINUTES * 60

/-- `get_current_user` of `backend/api/dashboard.py`: decode the bearer token,
reject a missing `sub`, return the subject id. -/
def get_current_user (t : Token) (key : String) (now : Nat) : Except ApiError Nat :=
  match jwt_decode t key now with
  | none => .error (.http 401 "Invalid token")
  | some (sub, _) =>
    match sub with
    | none => .error (.http 401 "Invalid token payload")
    | some uid => .ok uid

/-- The user document inserted by `signup` (hash is the bcrypt collaborator). -/
def newUser (hash : String → String) (st : St) (email password : String) (now : Nat) :
    UserDoc :=
  { id := st.nextId
    email := email
    username := (email.splitOn "@").headD ""
    password_hash := hash password
    created_at := now }

/-- `signup` of `backend/auth/signup.py`: reject an already-registered email,
otherwise hash the password, insert the user document and issue a JWT. -/
def signup (hash : String → String) (st : St) (email password : String)
    (now : Nat) (key : String) : Except ApiError (St × AuthResp) :=
  match st.users.find? (fun u => u.email == email) with
  | some _ => .error (.http 400 "Email already registered")
  | none =>
    let user := newUser hash st email password now
    let token := jwt_encode user.id (tokenExpiry now) key
    .ok ({ st with users := st.users ++ [user], nextId := st.nextId + 1 },
         { email := email, id := user.id, token := token })

/-- `login` of `backend/auth/login.py`: look up the user by email; the absent
user and the failed bcrypt verify collapse to one `401` with the same message. -/
def login (verify : String → String → Bool) (st : St) (username password : String)
    (now : Nat) (key : String) : Except ApiError AuthResp :=
  match st.users.find? (fun u => u.email == username) with
  | none => .error (.http 401 "Invalid email or password")
  | some user =>
    if verify password user.password_hash then
      .ok { email := user.email, id := user.id
            token := jwt_encode user.id (tokenExpiry now) key }
    else
      .error (.http 401 "Invalid email or password")

/-- `UPLOAD_DIR = os.path.join("static", "uploads")` joined with a filename. -/
def uploadsPath (filename : String) : String :=
  "static/uploads/" ++ filename

/-- `EDIT_DIR = os.path.join("static", "processed")` joined with a filename. -/
def processedPath (filename : String) : String :=
  "static/processed/" ++ filename

/-- `upload_image` of `backend/api/editor.py`.  `saveExc = some m` models the
filesystem raising an exception with text `m` while saving the upload (the
`except Exception as e` branch); `none` models a successful save.  On success
the handler writes the bytes under `static/uploads/<filename>` and inserts the
image document. -/
def upload_image (st : St) (filename : String) (content : Bytes) (user_id : Nat)
    (now : Nat) (saveExc : Option String) : Except ApiError (St × Nat × String) :=
  match saveExc with
  | some e => .error (.http 500 ("File save failed: " ++ e))
  | none =>
    let upload_path := uploadsPath filename
    let fs2 := fsWrite st.fs upload_path content
    let image_doc : ImageDoc :=
      { id := st.nextId
        user_id := user_id
        original_url := "/static/uploads/" ++ filename
        filename := filename
        uploaded_at := now
        tags := [] }
    .ok ({ st with
            fs := fs2
            images := st.images ++ [image_doc]
            nextId := st.nextId + 1 },
         image_doc.id, image_doc.original_url)

/-- The supported edit types: the keys of the `prompts` dictionary in
`backend/utils/image_ai.py`. -/
def editTypes : List String :=
  ["enhance", "restore", "retouch", "style", "background"]

/-- The opaque OpenAI image call of `process_image`
(`client.images.create_variation`): input bytes to output bytes or failure.
The prompt and intensity are not forwarded by the current code. -/
abbrev EditService := Bytes → Except String Bytes

/-- The body of `edit_image` that runs once the source image has been found
(the code from the `input_path` resolution to the final insert, with
`process_image` of `backend/utils/image_ai.py` inlined at its call site):
validate the edit type against the prompt table (raising `ValueError`
otherwise, which the route does not catch), open the upload, invoke the opaque
service, save the result under a fresh name in `static/processed`, and insert
the edit document carrying the caller-supplied `user_id`. -/
def editBody (svc : EditService) (st : St) (image_id : Nat) (edit_type : String)
    (intensity : Int) (user_id : Nat) (now : Nat) (image_doc : ImageDoc) :
    Except ApiError (St × String) :=
  let input_path := uploadsPath image_doc.filename
  let output_filename := toString st.nextId ++ ".jpg"
  let output_path := processedPath output_filename
  if editTypes.contains edit_type then
    match fsRead st.fs input_path with
    | none => .error (.osError ("No such file or directory: " ++ input_path))
    | some inputBytes =>
      match svc inputBytes with
      | .error m => .error (.serviceError m)
      | .ok outBytes =>
        let fs2 := fsWrite st.fs output_path outBytes
        let edit_doc : EditDoc :=
          { id := st.nextId + 1
            image_id := image_id
            edited_url := "/static/processed/" ++ output_filename
            prompt := edit_type ++ " with intensity " ++ toString intensity
            edited_at := now
            user_id := user_id
            edit_type := edit_type
            intensity := intensity }
        .ok ({ st with
                fs := fs2
                edits := st.edits ++ [edit_doc]
                nextId := st.nextId + 2 },
             edit_doc.edited_url)
  else
    .error (.valueError ("Unsupported edit_type: " ++ edit_type))

/-- `edit_image` of `backend/api/editor.py`: look up the image by id only (no
ownership check), then run `editBody` on the found document. -/
def edit_image (svc : EditService) (st : St) (image_id : Nat) (edit_type : String)
    (intensity : Int) (user_id : Nat) (now : Nat) : Except ApiError (St × String) :=
  match st.images.find? (fun i => i.id == image_id) with
  | none => .error (.http 404 "Image not found")
  | some image_doc =>
    editBody svc st image_id edit_type intensity user_id now image_doc

/-- One row of the `/user-images/{user_id}` response. -/
structure ImageSummary where
  id : Nat
  name : String
  originalImageUrl : String
  editedImageUrl : Option String
  createdAt : Nat
  editType : Option String
deriving Repr, DecidableEq

/-- `get_user_images_by_id` of `backend/api/dashboard.py`: every image owned by
`user_id`, each joined with the first edit document referencing it. -/
def get_user_images_by_id (st : St) (user_id : Nat) : List ImageSummary :=
  (st.images.filter (fun i => i.user_id == user_id)).map (fun image =>
    let edit := st.edits.find? (fun e => e.image_id == image.id)
    { id := image.id
      name := image.filename
      originalImageUrl := "http://localhost:8000" ++ image.original_url
      editedImageUrl := edit.map (fun e => "http://localhost:8000" ++ e.edited_url)
      createdAt := image.uploaded_at
      editType := edit.map (fun e => e.edit_type) })

/-- `delete_image` of `backend/api/dashboard.py`: require an image matching both
the id and the authenticated owner, then delete the image document, every edit
document referencing it, and (best effort) the upload blob. -/
def delete_image (st : St) (image_id : Nat) (current_user : Nat) :
    Except ApiError (St × String) :=
  match st.images.find? (fun i => i.id == image_id && i.user_id == current_user) with
  | none => .error (.http 404 "Image not found")
  | some image =>
    let images2 := st.images.eraseP (fun i => i.id == image_id)
    let edits2 := st.edits.filter (fun e => e.image_id != image_id)
    let fs2 := fsRemove st.fs (uploadsPath image.filename)
    .ok ({ st with images := images2, edits := edits2, fs := fs2 }, "deleted")

/-- True exactly on results that are the unsupported-edit-type failure
(the spec's `InvalidEditType`). -/
def isUnsupportedTypeErr {α : Type} : Except ApiError α → Bool
  | .error (.valueError _) => true
  | _ => false

/-- True exactly on successful results. -/
def isOkE {α : Type} : Except ApiError α → Bool
  | .ok _ => true
  | _ => false

/-- A stub edit service for concrete scenarios: always succeeds. -/
def svcOk : EditService := fun _ => .ok [9, 9]

/-- Example image owned by user 2. -/
def imgA : ImageDoc :=
  { id := 5, user_id := 2, original_url := "/static/uploads/cat.png"
    filename := "cat.png", uploaded_at := 3, tags := [] }

/-- Example edit referencing `imgA`, owned by user 2. -/
def editA : EditDoc :=
  { id := 6, image_id := 5, edited_url := "/static/processed/6.jpg"
    prompt := "enhance with intensity 50", edited_at := 4, user_id := 2
    edit_type := "enhance", intensity := 50 }

/-- Example state: one image of user 2 with one edit; both blobs on disk. -/
def stA : St :=
  { users := []
    images := [imgA]
    edits := [editA]
    fs := [("static/uploads/cat.png", [1, 2]), ("static/processed/6.jpg", [9, 9])]
    nextId := 7 }

/-- C1: the handler persists the caller-supplied subject id in the edit
document, not the owner stored on the image.  With `stA` holding an image owned
by user 2, a successful edit request by subject 1 writes an edit document whose
`user_id` is 1, while the image's `user_id` is 2 — the write-time equality the
spec requires is not enforced. -/
theorem edit_user_ref_not_owner_bug :
    (stA.images.find? (fun i => i.id == 5)).map (fun i => i.user_id) = some 2
    ∧ ((edit_image svcOk stA 5 "enhance" 50 1 99).toOption.map
        (fun r => r.1.edits.map (fun e => e.user_id))) = some [2, 1]
    ∧ (1 : Nat) ≠ 2 := by
  refine ⟨rfl, rfl, by decide⟩

/-- C8: the upload locator is derived solely from the caller-supplied filename,
so two uploads carrying the same filename (any users, any contents, any times)
target the same locator, and the second write shadows the first upload's
content at that locator. -/
theorem upload_locator_collision (st : St) (filename : String) (c1 c2 : Bytes)
    (uid1 uid2 now1 now2 : Nat) :
    ∃ st1 st2 : St,
      upload_image st filename c1 uid1 now1 none =
        .ok (st1, st.nextId, "/static/uploads/" ++ filename)
      ∧ upload_image st1 filename c2 uid2 now2 none =
        .ok (st2, st1.nextId, "/static/uploads/" ++ filename)
      ∧ fsRead st1.fs (uploadsPath filename) = some c1
      ∧ fsRead st2.fs (uploadsPath filename) = some c2 := by
  refine ⟨_, _, rfl, rfl, ?_, ?_⟩ <;>
    simp [upload_image, fsRead, fsWrite, uploadsPath]

/-- C9: when the filesystem save raises an exception with text `e`, the
user-visible detail is the string `"File save failed: " ++ e` — it embeds the
underlying exception's own text rather than a generic message. -/
theorem upload_storage_error_message_contains_exception (st : St)
    (filename : String) (content : Bytes) (user_id now : Nat) (e : String) :
    upload_image st filename content user_id now (some e) =
      .error (.http 500 ("File save failed: " ++ e)) := rfl

/-- Post-lookup body never produces the route's 404 error: its failures are
the unsupported-type `ValueError`, the missing-file error, or the service
error. -/
lemma editBody_ne_http (svc : EditService) (st : St) (image_id : Nat)
    (edit_type : String) (intensity : Int) (user_id now : Nat) (img : ImageDoc)
    (s : Nat) (d : String) :
    editBody svc st image_id edit_type intensity user_id now img ≠
      .error (.http s d) := by
  unfold editBody
  split
  · dsimp only
    split
    · simp
    · split <;> simp
  · simp

/-- Post-lookup body failure results do not depend on the caller-supplied
subject id. -/
lemma editBody_error_uid (svc : EditService) (st : St) (image_id : Nat)
    (edit_type : String) (intensity : Int) (uid1 uid2 now : Nat) (img : ImageDoc)
    (e : ApiError) :
    editBody svc st image_id edit_type intensity uid1 now img = .error e ↔
      editBody svc st image_id edit_type intensity uid2 now img = .error e := by
  unfold editBody
  split
  · dsimp only
    split
    · simp
    · split <;> simp
  · simp

/-- Post-lookup body success does not depend on the caller-supplied subject
id. -/
lemma editBody_isOk_uid (svc : EditService) (st : St) (image_id : Nat)
    (edit_type : String) (intensity : Int) (uid1 uid2 now : Nat) (img : ImageDoc) :
    isOkE (editBody svc st image_id edit_type intensity uid1 now img) =
      isOkE (editBody svc st image_id edit_type intensity uid2 now img) := by
  unfold editBody
  split
  · dsimp only
    split
    · rfl
    · split <;> rfl
  · rfl

/-- C2: the edit route checks only that an image with the given id exists — it
fails with the 404 "Image not found" exactly when the lookup by id comes back
empty — and never verifies that the requesting subject owns it: for an
existing image, changing the caller-supplied subject id changes neither which
error (if any) is produced nor whether the dispatch succeeds. -/
theorem edit_dispatch_ignores_ownership (svc : EditService) (st : St)
    (image_id : Nat) (edit_type : String) (intensity : Int) (uid1 uid2 now : Nat) :
    (edit_image svc st image_id edit_type intensity uid1 now =
        .error (.http 404 "Image not found")
      ↔ st.images.find? (fun i => i.id == image_id) = none)
    ∧ (∀ e : ApiError,
        edit_image svc st image_id edit_type intensity uid1 now = .error e ↔
          edit_image svc st image_id edit_type intensity uid2 now = .error e)
    ∧ isOkE (edit_image svc st image_id edit_type intensity uid1 now) =
        isOkE (edit_image svc st image_id edit_type intensity uid2 now) := by
  cases hf : st.images.find? (fun i => i.id == image_id) with
  | none =>
    refine ⟨by simp [edit_image, hf], fun e => by simp [edit_image, hf],
      by simp [edit_image, hf]⟩
  | some img =>
    refine ⟨?_, fun e => ?_, ?_⟩
    · simp only [edit_image, hf]
      simp only [hf, iff_false, reduceCtorEq]
      exact editBody_ne_http svc st image_id edit_type intensity uid1 now img
        404 "Image not found"
    · simp only [edit_image, hf]
      exact editBody_error_uid svc st image_id edit_type intensity uid1 uid2 now img e
    · simp only [edit_image, hf]
      exact editBody_isOk_uid svc st image_id edit_type intensity uid1 uid2 now img

/-- The empty initial state. -/
def stEmpty : St :=
  { users := [], images := [], edits := [], fs := [], nextId := 0 }

/-- C4 counterexample: an edit request with the unsupported type "blur" against
a non-existent image fails with the 404 "Image not found", not with the
unsupported-edit-type error — the image lookup precedes the edit-type check, so
the claim's unconditional "always fails with InvalidEditType" is false. -/
theorem invalid_edit_type_precedence_cex :
    editTypes.contains "blur" = false
    ∧ edit_image svcOk stEmpty 5 "blur" 3 1 0 = .error (.http 404 "Image not found")
    ∧ isUnsupportedTypeErr (edit_image svcOk stEmpty 5 "blur" 3 1 0) = false :=
  ⟨by decide, rfl, rfl⟩

/-- C4 (amended): for an edit request whose edit type is outside the supported
enumeration, if the referenced image exists the request fails with the
unsupported-edit-type error (`ValueError`, the spec's `InvalidEditType`); and
whether or not the image exists, the request never succeeds, so no edit
document is written. -/
theorem invalid_edit_type_rejected (svc : EditService) (st : St) (image_id : Nat)
    (edit_type : String) (intensity : Int) (user_id now : Nat)
    (ht : editTypes.contains edit_type = false) :
    (∀ img, st.images.find? (fun i => i.id == image_id) = some img →
        edit_image svc st image_id edit_type intensity user_id now =
          .error (.valueError ("Unsupported edit_type: " ++ edit_type)))
    ∧ ∀ st2 r,
        edit_image svc st image_id edit_type intensity user_id now ≠ .ok (st2, r) := by
  have ht2 : edit_type ∉ editTypes := by simpa using ht
  constructor
  · intro img hf
    simp only [edit_image, hf]
    unfold editBody
    simp [ht2]
  · intro st2 r h
    cases hf : st.images.find? (fun i => i.id == image_id) with
    | none => simp [edit_image, hf] at h
    | some img =>
      simp only [edit_image, hf] at h
      unfold editBody at h
      simp [ht2] at h

/-- Witness for C4: in the one-image state `stA`, an edit request with type
"blur" against the existing image 5 fails with the unsupported-edit-type
error. -/
theorem invalid_edit_type_rejected_witness :
    edit_image svcOk stA 5 "blur" 3 1 0 =
      .error (.valueError ("Unsupported edit_type: " ++ "blur")) :=
  (invalid_edit_type_rejected svcOk stA 5 "blur" 3 1 0 (by decide)).1 imgA rfl

/-- C5: a session token issued by a successful signup or login, presented to
the dashboard's `get_current_user` with the same signing key at any instant
before its expiry, authenticates as exactly the subject id that the response
carried at issuance. -/
theorem issued_token_roundtrip (hash : String → String)
    (verify : String → String → Bool) (st : St) (email password : String)
    (now : Nat) (key : String) :
    (∀ st2 resp, signup hash st email password now key = .ok (st2, resp) →
        ∀ t, t < resp.token.exp → get_current_user resp.token key t = .ok resp.id)
    ∧ (∀ resp, login verify st email password now key = .ok resp →
        ∀ t, t < resp.token.exp → get_current_user resp.token key t = .ok resp.id) := by
  constructor
  · intro st2 resp h t ht
    cases hf : st.users.find? (fun u => u.email == email) with
    | some u => simp [signup, hf] at h
    | none =>
      simp only [signup, hf, Except.ok.injEq, Prod.mk.injEq] at h
      obtain ⟨-, h2⟩ := h
      subst h2
      simp only [jwt_encode] at ht
      simp [get_current_user, jwt_decode, jwt_encode, ht]
  · intro resp h t ht
    cases hf : st.users.find? (fun u => u.email == email) with
    | none => simp [login, hf] at h
    | some u =>
      by_cases hv : verify password u.password_hash = true
      · simp only [login, hf, if_pos hv, Except.ok.injEq] at h
        subst h
        simp only [jwt_encode] at ht
        simp [get_current_user, jwt_decode, jwt_encode, ht]
      · simp [login, hf, if_neg hv] at h

/-- Example bcrypt collaborators: the hash tags the password, verify checks the
tag. -/
def hashW : String → String := fun p => "h:" ++ p

/-- Verify collaborator matching `hashW`. -/
def verifyW : String → String → Bool := fun p h => h == "h:" ++ p

/-- The state after `signup hashW stEmpty "a@x.com" "pw" 0 "k"`. -/
def stW2 : St :=
  { users := [newUser hashW stEmpty "a@x.com" "pw" 0]
    images := [], edits := [], fs := [], nextId := 1 }

/-- The response of `signup hashW stEmpty "a@x.com" "pw" 0 "k"`. -/
def respW : AuthResp :=
  { email := "a@x.com", id := 0
    token := { sub := some 0, exp := tokenExpiry 0, key := "k" } }

/-- Witness for C5: the signup-issued token of `respW` authenticates back to
subject 0 at time 0. -/
theorem issued_token_roundtrip_witness :
    get_current_user respW.token "k" 0 = .ok respW.id :=
  (issued_token_roundtrip hashW verifyW stEmpty "a@x.com" "pw" 0 "k").1
    stW2 respW rfl 0 (by decide)

/-- C6: when some stored user already has the requested email, signup fails
with the duplicate-identity error (and, the handler raising before any insert,
persists nothing); when no stored user has it, signup succeeds and persists
exactly one new user document carrying that email and the hashed password,
returning the fresh id and a token for it. -/
theorem signup_fresh_vs_duplicate (hash : String → String) (st : St)
    (email password : String) (now : Nat) (key : String) :
    ((∃ u ∈ st.users, u.email = email) →
        signup hash st email password now key =
          .error (.http 400 "Email already registered"))
    ∧ ((∀ u ∈ st.users, u.email ≠ email) →
        signup hash st email password now key =
          .ok ({ st with
                  users := st.users ++ [newUser hash st email password now]
                  nextId := st.nextId + 1 },
               { email := email, id := st.nextId
                 token := jwt_encode st.nextId (tokenExpiry now) key })) := by
  constructor
  · rintro ⟨u, hu, he⟩
    cases hf : st.users.find? (fun v => v.email == email) with
    | some v => simp [signup, hf]
    | none =>
      exfalso
      exact List.find?_eq_none.mp hf u hu (by simpa using he)
  · intro hall
    cases hf : st.users.find? (fun v => v.email == email) with
    | some v =>
      exfalso
      exact hall v (List.mem_of_find?_eq_some hf)
        (by simpa using List.find?_some hf)
    | none =>
      simp [signup, hf, newUser]

/-- A state holding one registered user with email "a@x.com". -/
def stUsers : St :=
  { users := [newUser hashW stEmpty "a@x.com" "pw" 0]
    images := [], edits := [], fs := [], nextId := 1 }

/-- Witness for C6: signing the email "a@x.com" up against `stUsers` (which
already holds it) fails with the duplicate error; signing it up against the
empty state succeeds and appends the new user document. -/
theorem signup_fresh_vs_duplicate_witness :
    signup hashW stUsers "a@x.com" "pw2" 1 "k" =
      .error (.http 400 "Email already registered")
    ∧ signup hashW stEmpty "a@x.com" "pw" 0 "k" = .ok (stW2, respW) := by
  constructor
  · exact (signup_fresh_vs_duplicate hashW stUsers "a@x.com" "pw2" 1 "k").1
      ⟨newUser hashW stEmpty "a@x.com" "pw" 0, by simp [stUsers], rfl⟩
  · exact (signup_fresh_vs_duplicate hashW stEmpty "a@x.com" "pw" 0 "k").2
      (by intro u hu; simp [stEmpty] at hu)

/-- C7: assuming stored emails are pairwise distinct (the uniqueness signup
enforces), login succeeds exactly when a stored user has the given email and
the verify collaborator accepts the password against that user's stored hash;
and it returns the single 401 "Invalid email or password" exactly otherwise, so
the unknown-email and wrong-password failures are indistinguishable to the
caller. -/
theorem login_iff_credentials (verify : String → String → Bool) (st : St)
    (email password : String) (now : Nat) (key : String)
    (hem : (st.users.map (fun u => u.email)).Nodup) :
    ((∃ resp, login verify st email password now key = .ok resp) ↔
      ∃ u ∈ st.users, u.email = email ∧ verify password u.password_hash = true)
    ∧ (login verify st email password now key =
        .error (.http 401 "Invalid email or password") ↔
      ¬ ∃ u ∈ st.users, u.email = email ∧ verify password u.password_hash = true) := by
  cases hf : st.users.find? (fun u => u.email == email) with
  | none =>
    have hnone : ∀ u ∈ st.users, u.email ≠ email := by
      intro u hu he
      exact List.find?_eq_none.mp hf u hu (by simpa using he)
    constructor
    · simp only [login, hf]
      constructor
      · rintro ⟨resp, h⟩
        exact absurd h (by simp)
      · rintro ⟨u, hu, he, hv⟩
        exact absurd he (hnone u hu)
    · simp only [login, hf]
      constructor
      · rintro - ⟨u, hu, he, hv⟩
        exact hnone u hu he
      · intro _
        trivial
  | some u =>
    have hu : u ∈ st.users := List.mem_of_find?_eq_some hf
    have hue : u.email = email := by simpa using List.find?_some hf
    by_cases hv : verify password u.password_hash = true
    · constructor
      · simp only [login, hf, if_pos hv]
        exact ⟨fun _ => ⟨u, hu, hue, hv⟩, fun _ => ⟨_, rfl⟩⟩
      · simp only [login, hf, if_pos hv]
        constructor
        · intro h
          exact absurd h (by simp)
        · intro h
          exact absurd ⟨u, hu, hue, hv⟩ h
    · have huniq : ∀ v ∈ st.users, v.email = email → v = u := fun v hvm hve =>
        List.inj_on_of_nodup_map hem hvm hu (by rw [hve, hue])
      have hno : ¬ ∃ v ∈ st.users, v.email = email
          ∧ verify password v.password_hash = true := by
        rintro ⟨v, hvm, hve, hvv⟩
        rw [huniq v hvm hve] at hvv
        exact hv hvv
      constructor
      · simp only [login, hf, if_neg hv]
        constructor
        · rintro ⟨resp, h⟩
          exact absurd h (by simp)
        · intro h
          exact absurd h hno
      · simp only [login, hf, if_neg hv]
        exact ⟨fun _ => hno, fun _ => trivial⟩

/-- A state holding one registered user with email "b@x.com" and stored hash
matching password "pw1" under `verifyW`. -/
def stUserB : St :=
  { users := [{ id := 3, email := "b@x.com", username := "b"
                password_hash := "h:pw1", created_at := 0 }]
    images := [], edits := [], fs := [], nextId := 4 }

/-- Witness for C7: a wrong password against the stored user of `stUserB`
fails with the single 401 credentials error. -/
theorem login_iff_credentials_witness :
    login verifyW stUserB "b@x.com" "wrong" 0 "k" =
      .error (.http 401 "Invalid email or password") :=
  ((login_iff_credentials verifyW stUserB "b@x.com" "wrong" 0 "k"
      (by decide)).2).mpr (by decide)

/-- Under the store-engine uniqueness of Mongo `_id`s (modelled as `Nodup` of
the ids), after erasing the first image document matching an id no remaining
document carries that id. -/
lemma mem_eraseP_id_ne (l : List ImageDoc) (iid : Nat)
    (hn : (l.map (fun i => i.id)).Nodup) :
    ∀ x ∈ l.eraseP (fun i => i.id == iid), x.id ≠ iid := by
  induction l with
  | nil =>
    intro x hx
    simp at hx
  | cons a t ih =>
    rw [List.map_cons, List.nodup_cons] at hn
    intro x hx
    rw [List.eraseP_cons] at hx
    cases ha : (a.id == iid) with
    | true =>
      rw [ha] at hx
      simp only [cond_true] at hx
      have haid : a.id = iid := by simpa using ha
      intro hxe
      apply hn.1
      have hxm : x.id ∈ t.map (fun i => i.id) := List.mem_map_of_mem _ hx
      rwa [hxe, ← haid] at hxm
    | false =>
      rw [ha] at hx
      simp only [cond_false, List.mem_cons] at hx
      cases hx with
      | inl he =>
        subst he
        simpa using ha
      | inr ht => exact ih hn.2 x ht

/-- Removing one path from the filesystem leaves the content of every other
path unchanged. -/
lemma fsRead_fsRemove_ne (fs : FS) (p q : String) (h : q ≠ p) :
    fsRead (fsRemove fs p) q = fsRead fs q := by
  induction fs with
  | nil => rfl
  | cons e t ih =>
    unfold fsRemove at ih ⊢
    rw [List.filter_cons]
    by_cases hep : e.1 = p
    · have h1 : (e.1 != p) = false := by simp [hep]
      have h2 : (e.1 == q) = false := by
        rw [hep]
        exact beq_eq_false_iff_ne.mpr (fun hq => h hq.symm)
      rw [h1]
      simp only [Bool.false_eq_true, if_false]
      unfold fsRead
      rw [List.find?_cons, h2]
      exact ih
    · have h1 : (e.1 != p) = true := by simpa using hep
      rw [h1]
      simp only [if_true]
      unfold fsRead
      rw [List.find?_cons, List.find?_cons]
      cases heq : (e.1 == q) with
      | true => rfl
      | false => exact ih

/-- An uploads-area locator is never a processed-area locator. -/
lemma uploadsPath_ne_processedPath (a b : String) :
    uploadsPath a ≠ processedPath b := by
  intro h
  unfold uploadsPath processedPath at h
  have h2 := congrArg String.data h
  rw [String.data_append, String.data_append] at h2
  have ha : "static/uploads/".data =
      ['s', 't', 'a', 't', 'i', 'c', '/', 'u', 'p', 'l', 'o', 'a', 'd', 's', '/'] := rfl
  have hb : "static/processed/".data =
      ['s', 't', 'a', 't', 'i', 'c', '/', 'p', 'r', 'o', 'c', 'e', 's', 's', 'e', 'd', '/'] := rfl
  rw [ha, hb] at h2
  simp at h2

/-- C3: deletion requires ownership and cascades.  Under store-engine
uniqueness of image ids, `delete_image` fails with the 404 "Image not found"
when no image matches both the id and the calling subject; and on success the
resulting state holds no image document with that id and no edit document
referencing it, so no listing for any user contains an entry for it. -/
theorem delete_image_ownership_and_cascade (st : St) (image_id current_user : Nat)
    (hids : (st.images.map (fun i => i.id)).Nodup) :
    ((∀ img ∈ st.images, ¬(img.id = image_id ∧ img.user_id = current_user)) →
        delete_image st image_id current_user = .error (.http 404 "Image not found"))
    ∧ (∀ st2 r, delete_image st image_id current_user = .ok (st2, r) →
        (∃ img ∈ st.images, img.id = image_id ∧ img.user_id = current_user)
        ∧ (∀ img ∈ st2.images, img.id ≠ image_id)
        ∧ (∀ e ∈ st2.edits, e.image_id ≠ image_id)
        ∧ (∀ u sm, sm ∈ get_user_images_by_id st2 u → sm.id ≠ image_id)) := by
  constructor
  · intro hall
    cases hf : st.images.find?
        (fun i => i.id == image_id && i.user_id == current_user) with
    | none => simp [delete_image, hf]
    | some img =>
      exfalso
      have hm := List.mem_of_find?_eq_some hf
      have hp : img.id = image_id ∧ img.user_id = current_user := by
        simpa using List.find?_some hf
      exact hall img hm hp
  · intro st2 r h
    cases hf : st.images.find?
        (fun i => i.id == image_id && i.user_id == current_user) with
    | none => simp [delete_image, hf] at h
    | some img =>
      simp only [delete_image, hf, Except.ok.injEq, Prod.mk.injEq] at h
      obtain ⟨h1, -⟩ := h
      subst h1
      have hmem := List.mem_of_find?_eq_some hf
      have hp : img.id = image_id ∧ img.user_id = current_user := by
        simpa using List.find?_some hf
      refine ⟨⟨img, hmem, hp⟩, ?_, ?_, ?_⟩
      · intro x hx
        exact mem_eraseP_id_ne st.images image_id hids x hx
      · intro e he
        have h2 := (List.mem_filter.mp he).2
        simpa using h2
      · intro u sm hsm
        unfold get_user_images_by_id at hsm
        obtain ⟨x, hx, hsm2⟩ := List.mem_map.mp hsm
        have hx2 := (List.mem_filter.mp hx).1
        have hxid := mem_eraseP_id_ne st.images image_id hids x hx2
        intro hcontra
        apply hxid
        rw [← hcontra, ← hsm2]

/-- Witness for C3: user 3 asking to delete image 5 (owned by user 2 in `stA`)
gets the 404 "Image not found". -/
theorem delete_image_ownership_and_cascade_witness :
    delete_image stA 5 3 = .error (.http 404 "Image not found") :=
  (delete_image_ownership_and_cascade stA 5 3 (by decide)).1 (by decide)

/-- C10: a successful `delete_image` leaves the whole processed area untouched
(every derived blob reads back unchanged) and removes at most the deleted
image's own upload blob: every locator other than that one is unchanged. -/
theorem delete_image_preserves_processed (st : St) (image_id current_user : Nat)
    (st2 : St) (r : String)
    (h : delete_image st image_id current_user = .ok (st2, r)) :
    (∀ nm, fsRead st2.fs (processedPath nm) = fsRead st.fs (processedPath nm))
    ∧ ∃ img,
        st.images.find? (fun i => i.id == image_id && i.user_id == current_user) =
          some img
        ∧ ∀ p, p ≠ uploadsPath img.filename → fsRead st2.fs p = fsRead st.fs p := by
  cases hf : st.images.find?
      (fun i => i.id == image_id && i.user_id == current_user) with
  | none => simp [delete_image, hf] at h
  | some img =>
    simp only [delete_image, hf, Except.ok.injEq, Prod.mk.injEq] at h
    obtain ⟨h1, -⟩ := h
    subst h1
    refine ⟨?_, img, rfl, ?_⟩
    · intro nm
      exact fsRead_fsRemove_ne st.fs (uploadsPath img.filename) (processedPath nm)
        (fun he => uploadsPath_ne_processedPath img.filename nm he.symm)
    · intro p hp
      exact fsRead_fsRemove_ne st.fs (uploadsPath img.filename) p hp

/-- The state after `delete_image stA 5 2`: the image and its edit are gone,
the processed blob is still on disk. -/
def stADel : St :=
  { users := [], images := [], edits := []
    fs := [("static/processed/6.jpg", [9, 9])], nextId := 7 }

/-- Witness for C10: after the owner deletes image 5 from `stA`, the derived
blob `static/processed/6.jpg` reads back exactly as before. -/
theorem delete_image_preserves_processed_witness :
    fsRead stADel.fs (processedPath "6.jpg") = fsRead stA.fs (processedPath "6.jpg") :=
  (delete_image_preserves_processed stA 5 2 stADel "deleted" rfl).1 "6.jpg"

end Smartpix
